import Mathlib

set_option maxRecDepth 100000

/-!
Verification of the ceph-csi multi-cluster configuration resolver, bounded
command executor and journal identity model, as described by the repository
specification and exercised by the tests under `internal/util` and the
`Snapshot` interface in `internal/rbd/types`.

The Go implementations of the resolver accessors (`Mons`,
`GetRBDNetNamespaceFilePath`, `GetCephFSNetNamespaceFilePath`,
`GetNFSNetNamespaceFilePath`, `GetCephFSMountOptions`,
`GetRBDMirrorDaemonCount`, `GetCrushLocationLabels`), of the executor
(`ExecCommandWithTimeout`) and of the journal are not part of the sources
provided; they are modelled here from the specification, and validated
against the behaviour demanded by the provided tests.
-/

namespace CephCSI

/-- A structured (JSON) value, the shape of the configuration document. -/
inductive Json where
  | null : Json
  | bool (b : Bool) : Json
  | num (n : Int) : Json
  | str (s : String) : Json
  | arr (xs : List Json) : Json
  | obj (fields : List (String × Json)) : Json

namespace JsonText

/-- Whitespace characters of the JSON grammar. -/
def isWs (c : Char) : Bool :=
  c = ' ' || c = '\n' || c = '\t' || c = '\r'

/-- Drop leading JSON whitespace. -/
def skipWs (cs : List Char) : List Char :=
  cs.dropWhile isWs

/-- Parse the body of a JSON string literal after the opening quote,
returning the decoded characters and the input after the closing quote. -/
def parseStringBody (fuel : Nat) (cs : List Char) : Option (List Char × List Char) :=
  match fuel, cs with
  | 0, _ => none
  | _, [] => none
  | fuel + 1, c :: rest =>
    if c = '"' then
      some ([], rest)
    else if c = '\\' then
      match rest with
      | [] => none
      | e :: rest2 =>
        let decoded : Option Char :=
          if e = '"' then some '"'
          else if e = '\\' then some '\\'
          else if e = '/' then some '/'
          else if e = 'n' then some '\n'
          else if e = 't' then some '\t'
          else if e = 'r' then some '\r'
          else none
        match decoded with
        | none => none
        | some d =>
          match parseStringBody fuel rest2 with
          | none => none
          | some (tail, rem) => some (d :: tail, rem)
    else
      match parseStringBody fuel rest with
      | none => none
      | some (tail, rem) => some (c :: tail, rem)

/-- Parse a run of decimal digits. -/
def parseDigits (cs : List Char) : Option (Nat × List Char) :=
  let digits := cs.takeWhile Char.isDigit
  if digits.isEmpty then none
  else some (digits.foldl (fun acc c => acc * 10 + (c.toNat - 48)) 0, cs.dropWhile Char.isDigit)

mutual

/-- Parse one JSON value at the head of the input (no leading whitespace). -/
def parseValue (fuel : Nat) (cs : List Char) : Option (Json × List Char) :=
  match fuel, cs with
  | 0, _ => none
  | _, [] => none
  | fuel + 1, c :: rest =>
    if c = 'n' then
      match rest with
      | 'u' :: 'l' :: 'l' :: rem => some (Json.null, rem)
      | _ => none
    else if c = 't' then
      match rest with
      | 'r' :: 'u' :: 'e' :: rem => some (Json.bool true, rem)
      | _ => none
    else if c = 'f' then
      match rest with
      | 'a' :: 'l' :: 's' :: 'e' :: rem => some (Json.bool false, rem)
      | _ => none
    else if c = '"' then
      match parseStringBody fuel rest with
      | none => none
      | some (body, rem) => some (Json.str (String.mk body), rem)
    else if c = '-' then
      match parseDigits rest with
      | none => none
      | some (n, rem) => some (Json.num (-(n : Int)), rem)
    else if c.isDigit then
      match parseDigits (c :: rest) with
      | none => none
      | some (n, rem) => some (Json.num (n : Int), rem)
    else if c = '[' then
      match skipWs rest with
      | ']' :: rem => some (Json.arr [], rem)
      | rest2 => parseArrayItems fuel rest2 []
    else if c = '\x7b' then
      match skipWs rest with
      | '\x7d' :: rem => some (Json.obj [], rem)
      | rest2 => parseObjectItems fuel rest2 []
    else
      none

/-- Parse the elements of a non-empty JSON array, accumulating in reverse. -/
def parseArrayItems (fuel : Nat) (cs : List Char) (acc : List Json) :
    Option (Json × List Char) :=
  match fuel with
  | 0 => none
  | fuel + 1 =>
    match parseValue fuel cs with
    | none => none
    | some (v, rem) =>
      match skipWs rem with
      | ',' :: rem2 => parseArrayItems fuel (skipWs rem2) (v :: acc)
      | ']' :: rem2 => some (Json.arr (v :: acc).reverse, rem2)
      | _ => none

/-- Parse the members of a non-empty JSON object, accumulating in reverse. -/
def parseObjectItems (fuel : Nat) (cs : List Char) (acc : List (String × Json)) :
    Option (Json × List Char) :=
  match fuel with
  | 0 => none
  | fuel + 1 =>
    match cs with
    | '"' :: rest =>
      match parseStringBody fuel rest with
      | none => none
      | some (key, rem) =>
        match skipWs rem with
        | ':' :: rem2 =>
          match parseValue fuel (skipWs rem2) with
          | none => none
          | some (v, rem3) =>
            match skipWs rem3 with
            | ',' :: rem4 => parseObjectItems fuel (skipWs rem4) ((String.mk key, v) :: acc)
            | '\x7d' :: rem4 => some (Json.obj ((String.mk key, v) :: acc).reverse, rem4)
            | _ => none
        | _ => none
    | _ => none

end

/-- Parse a complete JSON document: one value, possibly surrounded by
whitespace, with nothing else before the end of input.  A zero-byte
document has no value at all and therefore fails. -/
def parseJson (s : String) : Option Json :=
  match parseValue (s.length + 1) (skipWs s.data) with
  | none => none
  | some (v, rem) => if (skipWs rem).isEmpty then some v else none

end JsonText

/-- The error taxonomy of the configuration resolver (spec section 7):
`configUnreadable` for a missing or unparsable document, `malformedRecord`
for a structurally present but semantically invalid field, and
`clusterNotFound` when no record matches the requested identifier. -/
inductive ConfigError where
  | configUnreadable : ConfigError
  | malformedRecord : ConfigError
  | clusterNotFound : ConfigError
deriving Repr, DecidableEq

/-- The configuration file as seen by one resolver call: either absent from
the filesystem or present with the given byte content. -/
inductive FileState where
  | missing : FileState
  | contents (s : String) : FileState

/-- One raw cluster record: the field list of a JSON object. -/
abbrev RawRecord := List (String × Json)

/-- First value bound to key `k` in a raw record. -/
def getField (r : RawRecord) (k : String) : Option Json :=
  (r.find? (fun p => p.1 = k)).map Prod.snd

/-- The fields of a nested object-valued field, if it is present as an
object. -/
def getSection (r : RawRecord) (k : String) : Option RawRecord :=
  match getField r k with
  | some (Json.obj fields) => some fields
  | _ => none

/-- A string-valued field, defaulting to the empty string when the field is
absent (or not a string). -/
def getStringField (r : RawRecord) (k : String) : String :=
  match getField r k with
  | some (Json.str s) => s
  | _ => ""

/-- Decode a list of JSON values as strings; fails if any element is not a
string. -/
def asStringListCore : List Json → Option (List String)
  | [] => some []
  | Json.str s :: rest =>
    match asStringListCore rest with
    | some tail => some (s :: tail)
    | none => none
  | _ => none

/-- Decode a JSON value as a list of strings; fails if the value is not an
array or any element is not a string. -/
def asStringList : Json → Option (List String)
  | Json.arr xs => asStringListCore xs
  | _ => none

/-- Require every element of the document's top-level array to be an
object. -/
def collectRecords : List Json → Option (List RawRecord)
  | [] => some []
  | Json.obj fields :: rest =>
    match collectRecords rest with
    | none => none
    | some rs => some (fields :: rs)
  | _ => none

/-- Modelled from the spec: the ConfigStore (the Go implementation is not in
the provided sources).  It re-reads the document on every call and parses it
as an ordered sequence of cluster records; a missing file, unparsable text
(including a zero-byte file), a non-array document or a non-object element
is `configUnreadable`. -/
def loadConfig : FileState → Except ConfigError (List RawRecord)
  | FileState.missing => Except.error ConfigError.configUnreadable
  | FileState.contents s =>
    match JsonText.parseJson s with
    | some (Json.arr xs) =>
      match collectRecords xs with
      | some rs => Except.ok rs
      | none => Except.error ConfigError.configUnreadable
    | _ => Except.error ConfigError.configUnreadable

/-- Does this record carry `clusterID` equal to `id`? -/
def matchesID (r : RawRecord) (id : String) : Bool :=
  match getField r "clusterID" with
  | some (Json.str s) => s = id
  | _ => false

/-- Modelled from the spec: the shared resolution algorithm of every
accessor (the Go `readClusterInfo` is not in the provided sources): scan in
document order, return the first record whose `clusterID` equals the
requested value, and fail with `clusterNotFound` when none matches. -/
def resolveCluster (file : FileState) (id : String) : Except ConfigError RawRecord :=
  match loadConfig file with
  | Except.error e => Except.error e
  | Except.ok rs =>
    match rs.find? (fun r => matchesID r id) with
    | some r => Except.ok r
    | none => Except.error ConfigError.clusterNotFound

/-- Modelled from the spec: `Mons` / `Monitors` (the Go implementation is
not in the provided sources).  Returns the comma-joined monitor endpoints of
the matched record; fails with `malformedRecord` when the record lacks a
`monitors` field, an element is not a string, or the list is empty. -/
def Mons (file : FileState) (id : String) : Except ConfigError String :=
  match resolveCluster file id with
  | Except.error e => Except.error e
  | Except.ok r =>
    match getField r "monitors" with
    | none => Except.error ConfigError.malformedRecord
    | some j =>
      match asStringList j with
      | none => Except.error ConfigError.malformedRecord
      | some [] => Except.error ConfigError.malformedRecord
      | some ms => Except.ok (String.intercalate "," ms)

/-- The three backend kinds that carry a net-namespace isolation path. -/
inductive BackendKind where
  | rbd : BackendKind
  | cephfs : BackendKind
  | nfs : BackendKind

/-- The configuration section name of each backend kind. -/
def backendKey : BackendKind → String
  | BackendKind.rbd => "rbd"
  | BackendKind.cephfs => "cephfs"
  | BackendKind.nfs => "nfs"

/-- The isolation path recorded for one backend kind in a cluster record:
the `netNamespaceFilePath` field of the backend's section, defaulting to the
empty string when the section or the field is unset. -/
def netNamespacePathOf (r : RawRecord) (kind : BackendKind) : String :=
  match getSection r (backendKey kind) with
  | none => ""
  | some fields => getStringField fields "netNamespaceFilePath"

/-- Modelled from the spec: `NetNamespaceFilePath` (the Go implementations
are not in the provided sources).  Returns the per-backend isolation path of
the matched record, or the empty string when the record exists but the field
is unset; never errors for an absent field. -/
def NetNamespaceFilePath (file : FileState) (id : String) (kind : BackendKind) :
    Except ConfigError String :=
  match resolveCluster file id with
  | Except.error e => Except.error e
  | Except.ok r => Except.ok (netNamespacePathOf r kind)

/-- The RBD instance of `NetNamespaceFilePath`, as named by the tests. -/
def GetRBDNetNamespaceFilePath (file : FileState) (id : String) : Except ConfigError String :=
  NetNamespaceFilePath file id BackendKind.rbd

/-- The CephFS instance of `NetNamespaceFilePath`, as named by the tests. -/
def GetCephFSNetNamespaceFilePath (file : FileState) (id : String) : Except ConfigError String :=
  NetNamespaceFilePath file id BackendKind.cephfs

/-- The NFS instance of `NetNamespaceFilePath`, as named by the tests. -/
def GetNFSNetNamespaceFilePath (file : FileState) (id : String) : Except ConfigError String :=
  NetNamespaceFilePath file id BackendKind.nfs

/-- Modelled from the spec: `CephFSMountOptions` (the Go implementation is
not in the provided sources).  Returns the kernel and fuse mount option
strings of the matched record, each defaulting to the empty string. -/
def GetCephFSMountOptions (file : FileState) (id : String) :
    Except ConfigError (String × String) :=
  match resolveCluster file id with
  | Except.error e => Except.error e
  | Except.ok r =>
    match getSection r "cephfs" with
    | none => Except.ok ("", "")
    | some fields =>
      Except.ok (getStringField fields "kernelMountOptions", getStringField fields "fuseMountOptions")

/-- Modelled from the spec: `MirrorDaemonCount` (the Go implementation is
not in the provided sources).  Returns the configured integer, defaulting to
1 when the field is absent; fails with `malformedRecord` when the field is
present but not an integer (no silent coercion). -/
def GetRBDMirrorDaemonCount (file : FileState) (id : String) : Except ConfigError Int :=
  match resolveCluster file id with
  | Except.error e => Except.error e
  | Except.ok r =>
    match getSection r "rbd" with
    | none => Except.ok 1
    | some fields =>
      match getField fields "mirrorDaemonCount" with
      | none => Except.ok 1
      | some (Json.num n) => Except.ok n
      | some _ => Except.error ConfigError.malformedRecord

/-- The `enabled` flag of a `readAffinity` section, defaulting to false when
absent or not a boolean. -/
def readAffinityEnabled (fields : RawRecord) : Bool :=
  match getField fields "enabled" with
  | some (Json.bool b) => b
  | _ => false

/-- The `crushLocationLabels` field of a `readAffinity` section, decoded as
a list of strings; an absent field is the empty list, a non-string element
fails. -/
def crushLabelsOf (fields : RawRecord) : Option (List String) :=
  match getField fields "crushLocationLabels" with
  | none => some []
  | some j => asStringList j

/-- Modelled from the spec: `CrushLocationLabels` (the Go implementation is
not in the provided sources).  Returns `(false, "")` whenever the
`readAffinity` section is absent or `enabled` is not true, regardless of any
configured labels; when enabled, returns `true` with the comma-joined
ordered label list. -/
def GetCrushLocationLabels (file : FileState) (id : String) :
    Except ConfigError (Bool × String) :=
  match resolveCluster file id with
  | Except.error e => Except.error e
  | Except.ok r =>
    match getSection r "readAffinity" with
    | none => Except.ok (false, "")
    | some fields =>
      if readAffinityEnabled fields then
        match crushLabelsOf fields with
        | none => Except.error ConfigError.malformedRecord
        | some ls => Except.ok (true, String.intercalate "," ls)
      else
        Except.ok (false, "")

/-!  The bounded external-command executor (spec section 4.2).  The Go
`ExecCommandWithTimeout` is not in the provided sources (only its test is);
it is modelled here over an abstract description of the external program's
behaviour: how long it would run unconstrained, whether it can be spawned at
all, its output and its exit status.  Wall-clock time is measured in
milliseconds as natural numbers. -/

/-- Abstract behaviour of one external program invocation: whether the
binary can be spawned, how long it runs to completion when not interrupted,
what it writes to stdout and stderr, and its exit status. -/
structure ProgramBehavior where
  spawnOk : Bool
  duration : Nat
  stdout : String
  stderr : String
  exitCode : Nat

/-- Classified executor failures (spec section 7): spawn failure, deadline
expiry, and non-zero exit carrying the exit status and captured stderr. -/
inductive ExecError where
  | spawnFailed : ExecError
  | timeout : ExecError
  | commandFailed (exitCode : Nat) (stderr : String) : ExecError
deriving Repr, DecidableEq

/-- What one executor call returns: captured output, the classified error if
any, the wall-clock time consumed, and whether a child process is still
running when the call returns. -/
structure ExecOutcome where
  stdout : String
  stderr : String
  err : Option ExecError
  elapsed : Nat
  childRunning : Bool

/-- The effective deadline of a call: the caller-supplied timeout, tightened
by any deadline already carried by the cancellation context — the earlier of
the two. -/
def effectiveDeadline (ctxDeadline : Option Nat) (timeoutMs : Nat) : Nat :=
  match ctxDeadline with
  | none => timeoutMs
  | some d => min d timeoutMs

/-- Modelled from the spec: `ExecCommandWithTimeout` / `RunBounded` (the Go
implementation is not in the provided sources, only its test).  A spawn
failure never reaches exit-status classification; a program outliving the
effective deadline is forcibly terminated at the deadline and the call fails
with `timeout`, discarding any partial output; a program finishing in time
returns its captured output, with `commandFailed` on a non-zero exit and no
error on exit status zero.  No return path leaves a child process
running. -/
def ExecCommandWithTimeout (ctxDeadline : Option Nat) (timeoutMs : Nat)
    (p : ProgramBehavior) : ExecOutcome :=
  let deadline := effectiveDeadline ctxDeadline timeoutMs
  if !p.spawnOk then
    { stdout := "", stderr := "", err := some ExecError.spawnFailed,
      elapsed := 0, childRunning := false }
  else if deadline < p.duration then
    { stdout := "", stderr := "", err := some ExecError.timeout,
      elapsed := deadline, childRunning := false }
  else if p.exitCode ≠ 0 then
    { stdout := p.stdout, stderr := p.stderr,
      err := some (ExecError.commandFailed p.exitCode p.stderr),
      elapsed := p.duration, childRunning := false }
  else
    { stdout := p.stdout, stderr := p.stderr, err := none,
      elapsed := p.duration, childRunning := false }

/-- Modelled from the spec and the test: the `timeout` classification is the
propagation of the context's deadline-exceeded condition, so `errors.Is`
with `context.DeadlineExceeded` holds exactly for `timeout` and for no other
executor error. -/
def errorsIsDeadlineExceeded : ExecError → Bool
  | ExecError.timeout => true
  | _ => false

/-!  The journal identity model (spec section 4.3).  The Go journal is not
in the provided sources; it is modelled here as a list of entries in
first-write order plus a mint counter for fresh UUIDs.  Concurrent
`AllocateIdentity` calls for one `requestName` are serialized by the
journal's per-name exclusive section, so a pair of concurrent calls is
modelled as the two sequential orders of the same atomic step. -/

/-- Lifecycle states of a journal entry. -/
inductive EntryState where
  | provisional : EntryState
  | ready : EntryState
  | deleting : EntryState
deriving Repr, DecidableEq

/-- The kinds of journalled storage objects. -/
inductive ObjectKind where
  | volume : ObjectKind
  | snapshot : ObjectKind
deriving Repr, DecidableEq

/-- A durable journal record binding a protocol-visible name to a backend
object. -/
structure JournalEntry where
  requestName : String
  objectUUID : Nat
  kind : ObjectKind
  parentUUID : Option Nat
  state : EntryState
deriving Repr, DecidableEq

/-- The journal: entries in first-write order, plus the next fresh UUID. -/
structure Journal where
  entries : List JournalEntry
  nextUUID : Nat

/-- Every stored UUID was minted before the next fresh one. -/
def JournalWF (j : Journal) : Prop :=
  ∀ e ∈ j.entries, e.objectUUID < j.nextUUID

/-- First entry recorded for a request name (first-write order). -/
def lookupEntry (j : Journal) (name : String) : Option JournalEntry :=
  j.entries.find? (fun e => e.requestName = name)

/-- Number of live entries recorded for a request name. -/
def entryCountFor (j : Journal) (name : String) : Nat :=
  (j.entries.filter (fun e => e.requestName = name)).length

/-- Modelled from the spec: `AllocateIdentity` (the Go journal is not in the
provided sources).  If an entry already exists for the request name it is
returned unchanged; otherwise a fresh `objectUUID` is minted and a
Provisional entry is written and returned.  The step is atomic under the
journal's per-name serialization. -/
def AllocateIdentity (j : Journal) (name : String) (kind : ObjectKind)
    (parent : Option Nat) : JournalEntry × Journal :=
  match lookupEntry j name with
  | some e => (e, j)
  | none =>
    let e : JournalEntry :=
      { requestName := name, objectUUID := j.nextUUID, kind := kind,
        parentUUID := parent, state := EntryState.provisional }
    (e, { entries := j.entries ++ [e], nextUUID := j.nextUUID + 1 })

/-!  Concrete configuration documents, taken from the provided tests and the
spec's end-to-end scenarios, together with their parsed record lists. -/

/-- The spec's end-to-end scenario A document. -/
def docScenarioA : FileState :=
  FileState.contents "[\x7b\"clusterID\":\"c1\",\"monitors\":[\"m1\",\"m2\",\"m3\"]\x7d]"

def recScenarioA : RawRecord :=
  [("clusterID", Json.str "c1"),
   ("monitors", Json.arr [Json.str "m1", Json.str "m2", Json.str "m3"])]

/-- The two-cluster document written by `TestCSIConfig`. -/
def docTwoClusters : FileState :=
  FileState.contents
    "[\x7b\"clusterID\":\"test2\",\"monitors\":[\"mon1\",\"mon2\",\"mon3\"]\x7d,\x7b\"clusterID\":\"test1\",\"monitors\":[\"mon4\",\"mon5\",\"mon6\"]\x7d]"

def recTest2 : RawRecord :=
  [("clusterID", Json.str "test2"),
   ("monitors", Json.arr [Json.str "mon1", Json.str "mon2", Json.str "mon3"])]

def recTest1 : RawRecord :=
  [("clusterID", Json.str "test1"),
   ("monitors", Json.arr [Json.str "mon4", Json.str "mon5", Json.str "mon6"])]

/-- `TestCSIConfig`: a record whose monitors key is misspelled, so the
matched record lacks a `monitors` field. -/
def docMonitorsMissing : FileState :=
  FileState.contents "[\x7b\"clusterID\":\"test2\",\"monitorsBad\":[\"mon1\",\"mon2\",\"mon3\"]\x7d]"

def recMonitorsMissing : RawRecord :=
  [("clusterID", Json.str "test2"),
   ("monitorsBad", Json.arr [Json.str "mon1", Json.str "mon2", Json.str "mon3"])]

/-- `TestCSIConfig`: a record with a numeric element in the monitors
list. -/
def docMonitorsNumeric : FileState :=
  FileState.contents "[\x7b\"clusterID\":\"test2\",\"monitors\":[\"mon1\",2,\"mon3\"]\x7d]"

def recMonitorsNumeric : RawRecord :=
  [("clusterID", Json.str "test2"),
   ("monitors", Json.arr [Json.str "mon1", Json.num 2, Json.str "mon3"])]

/-- `TestGetRBDMirrorDaemonCount`: a cluster with a configured mirror daemon
count and one without. -/
def docMirror : FileState :=
  FileState.contents
    "[\x7b\"clusterID\":\"cluster-1\",\"monitors\":[\"ip-1\",\"ip-2\"],\"rbd\":\x7b\"mirrorDaemonCount\":2\x7d\x7d,\x7b\"clusterID\":\"cluster-3\",\"monitors\":[\"ip-5\",\"ip-6\"]\x7d]"

def recMirror1 : RawRecord :=
  [("clusterID", Json.str "cluster-1"),
   ("monitors", Json.arr [Json.str "ip-1", Json.str "ip-2"]),
   ("rbd", Json.obj [("mirrorDaemonCount", Json.num 2)])]

def recMirror3 : RawRecord :=
  [("clusterID", Json.str "cluster-3"),
   ("monitors", Json.arr [Json.str "ip-5", Json.str "ip-6"])]

/-- `TestGetRBDMirrorDaemonCount`: the mirror daemon count encoded as a
string. -/
def docMirrorString : FileState :=
  FileState.contents
    "[\x7b\"clusterID\":\"cluster-1\",\"rbd\":\x7b\"mirrorDaemonCount\":\"2\"\x7d\x7d]"

def recMirrorString : RawRecord :=
  [("clusterID", Json.str "cluster-1"),
   ("rbd", Json.obj [("mirrorDaemonCount", Json.str "2")])]

/-- `TestGetReadAffinityOptions`: enabled with labels, disabled with labels,
and no `readAffinity` section at all. -/
def docReadAffinity : FileState :=
  FileState.contents
    "[\x7b\"clusterID\":\"cluster-1\",\"readAffinity\":\x7b\"enabled\":true,\"crushLocationLabels\":[\"topology.kubernetes.io/region\",\"topology.kubernetes.io/zone\",\"topology.io/rack\"]\x7d\x7d,\x7b\"clusterID\":\"cluster-3\",\"readAffinity\":\x7b\"enabled\":false,\"crushLocationLabels\":[\"topology.io/rack\"]\x7d\x7d,\x7b\"clusterID\":\"cluster-4\"\x7d]"

def recReadAffinity1 : RawRecord :=
  [("clusterID", Json.str "cluster-1"),
   ("readAffinity",
    Json.obj
      [("enabled", Json.bool true),
       ("crushLocationLabels",
        Json.arr
          [Json.str "topology.kubernetes.io/region",
           Json.str "topology.kubernetes.io/zone",
           Json.str "topology.io/rack"])])]

def recReadAffinity3 : RawRecord :=
  [("clusterID", Json.str "cluster-3"),
   ("readAffinity",
    Json.obj
      [("enabled", Json.bool false),
       ("crushLocationLabels", Json.arr [Json.str "topology.io/rack"])])]

def recReadAffinity4 : RawRecord :=
  [("clusterID", Json.str "cluster-4")]

/-- `TestGetRBDNetNamespaceFilePath`: a cluster with a configured RBD
isolation path and one with the field unset. -/
def docNetNamespace : FileState :=
  FileState.contents
    "[\x7b\"clusterID\":\"cluster-1\",\"monitors\":[\"ip-1\",\"ip-2\"],\"rbd\":\x7b\"netNamespaceFilePath\":\"/var/lib/kubelet/plugins/rbd.ceph.csi.com/cluster1-net\"\x7d\x7d,\x7b\"clusterID\":\"cluster-3\",\"monitors\":[\"ip-5\",\"ip-6\"]\x7d]"

def recNetNamespace1 : RawRecord :=
  [("clusterID", Json.str "cluster-1"),
   ("monitors", Json.arr [Json.str "ip-1", Json.str "ip-2"]),
   ("rbd",
    Json.obj
      [("netNamespaceFilePath",
        Json.str "/var/lib/kubelet/plugins/rbd.ceph.csi.com/cluster1-net")])]

def recNetNamespace3 : RawRecord :=
  [("clusterID", Json.str "cluster-3"),
   ("monitors", Json.arr [Json.str "ip-5", Json.str "ip-6"])]

/-!  Helper lemmas shared by the claim theorems. -/

/-- A list containing a non-string element never decodes as a string
list. -/
theorem asStringListCore_eq_none {xs : List Json} {x : Json} (hmem : x ∈ xs)
    (hx : ∀ s, x ≠ Json.str s) : asStringListCore xs = none := by
  induction xs with
  | nil => cases hmem
  | cons y ys ih =>
    rcases List.mem_cons.mp hmem with h | h
    · subst h
      cases x with
      | str s => exact absurd rfl (hx s)
      | null => rfl
      | bool b => rfl
      | num n => rfl
      | arr zs => rfl
      | obj fs => rfl
    · cases y with
      | str s =>
        show (match asStringListCore ys with
              | some tail => some (s :: tail)
              | none => none) = none
        rw [ih h]
      | null => rfl
      | bool b => rfl
      | num n => rfl
      | arr zs => rfl
      | obj fs => rfl

/-- `loadConfig` fails only with `configUnreadable`. -/
theorem loadConfig_error_unreadable {file : FileState} {e : ConfigError}
    (h : loadConfig file = Except.error e) : e = ConfigError.configUnreadable := by
  cases file with
  | missing =>
    rw [show loadConfig FileState.missing = Except.error ConfigError.configUnreadable from rfl]
      at h
    exact (Except.error.inj h).symm
  | contents s =>
    simp only [loadConfig] at h
    split at h
    · split at h
      · exact Except.noConfusion h
      · exact (Except.error.inj h).symm
    · exact (Except.error.inj h).symm

/-- The shared resolution step fails only with `clusterNotFound` or
`configUnreadable`. -/
theorem resolveCluster_error {file : FileState} {id : String} {e : ConfigError}
    (h : resolveCluster file id = Except.error e) :
    e = ConfigError.clusterNotFound ∨ e = ConfigError.configUnreadable := by
  unfold resolveCluster at h
  cases hload : loadConfig file with
  | error e2 =>
    rw [hload] at h
    exact Or.inr ((Except.error.inj h).symm.trans (loadConfig_error_unreadable hload))
  | ok rs =>
    rw [hload] at h
    simp only at h
    split at h
    · exact Except.noConfusion h
    · exact Or.inl (Except.error.inj h).symm

/-!  Claim theorems. -/

/-- C1: for every program and argument list, `RunBounded` (implemented as
`ExecCommandWithTimeout`) on a program that finishes within the deadline
returns the program's exact captured stdout and a nil error, and on a
program that outlives the deadline returns a `timeout` error that is
distinguishable from a normal non-zero-exit `commandFailed` error, with no
child process left running after the call returns (and, as in the spec's
scenario C, elapsed wall time equal to the deadline rather than the
program's full duration). -/
theorem ExecCommandWithTimeout_bounded (ctx : Option Nat) (timeoutMs : Nat)
    (p : ProgramBehavior) (hspawn : p.spawnOk = true) :
    (p.duration ≤ effectiveDeadline ctx timeoutMs → p.exitCode = 0 →
      (ExecCommandWithTimeout ctx timeoutMs p).stdout = p.stdout ∧
      (ExecCommandWithTimeout ctx timeoutMs p).err = none) ∧
    (effectiveDeadline ctx timeoutMs < p.duration →
      (ExecCommandWithTimeout ctx timeoutMs p).err = some ExecError.timeout ∧
      (ExecCommandWithTimeout ctx timeoutMs p).childRunning = false ∧
      (ExecCommandWithTimeout ctx timeoutMs p).elapsed = effectiveDeadline ctx timeoutMs ∧
      ∀ code stderrText, ExecError.timeout ≠ ExecError.commandFailed code stderrText) := by
  constructor
  · intro hdur hexit
    have hnlt : ¬ effectiveDeadline ctx timeoutMs < p.duration := not_lt.mpr hdur
    simp [ExecCommandWithTimeout, hspawn, hnlt, hexit]
  · intro hlt
    refine ⟨?_, ?_, ?_, ?_⟩ <;>
      simp [ExecCommandWithTimeout, hspawn, hlt]

/-- Witness for C1: a program writing `hello` and finishing at once under a
one-second deadline succeeds with its exact stdout; a program needing three
seconds under a one-second deadline times out, leaves no child running, and
is cut off at the deadline. -/
theorem ExecCommandWithTimeout_bounded_witness :
    (ExecCommandWithTimeout none 1000 ⟨true, 10, "hello\n", "", 0⟩).stdout = "hello\n" ∧
    (ExecCommandWithTimeout none 1000 ⟨true, 10, "hello\n", "", 0⟩).err = none ∧
    (ExecCommandWithTimeout none 1000 ⟨true, 3000, "", "", 0⟩).err = some ExecError.timeout ∧
    (ExecCommandWithTimeout none 1000 ⟨true, 3000, "", "", 0⟩).childRunning = false ∧
    (ExecCommandWithTimeout none 1000 ⟨true, 3000, "", "", 0⟩).elapsed = 1000 := by
  have h1 := ExecCommandWithTimeout_bounded none 1000 ⟨true, 10, "hello\n", "", 0⟩ rfl
  have h2 := ExecCommandWithTimeout_bounded none 1000 ⟨true, 3000, "", "", 0⟩ rfl
  exact ⟨(h1.1 (by decide) rfl).1, (h1.1 (by decide) rfl).2,
    (h2.2 (by decide)).1, (h2.2 (by decide)).2.1, (h2.2 (by decide)).2.2.1⟩

/-- C10: for every program that outlives its deadline,
`ExecCommandWithTimeout` returns an error satisfying the deadline-exceeded
classification (`errors.Is(err, context.DeadlineExceeded)` in the test), and
the stdout value returned alongside that timeout error is the empty string,
not partial output. -/
theorem ExecCommandWithTimeout_timeout_classification (ctx : Option Nat)
    (timeoutMs : Nat) (p : ProgramBehavior) (hspawn : p.spawnOk = true)
    (hlt : effectiveDeadline ctx timeoutMs < p.duration) :
    (ExecCommandWithTimeout ctx timeoutMs p).err = some ExecError.timeout ∧
    errorsIsDeadlineExceeded ExecError.timeout = true ∧
    (ExecCommandWithTimeout ctx timeoutMs p).stdout = "" := by
  refine ⟨?_, rfl, ?_⟩ <;> simp [ExecCommandWithTimeout, hspawn, hlt]

/-- Witness for C10: the test's sleep-3-seconds program under a one-second
deadline, even with output buffered, yields the deadline-exceeded error and
an empty stdout. -/
theorem ExecCommandWithTimeout_timeout_classification_witness :
    (ExecCommandWithTimeout none 1000 ⟨true, 3000, "partial", "", 0⟩).err =
      some ExecError.timeout ∧
    errorsIsDeadlineExceeded ExecError.timeout = true ∧
    (ExecCommandWithTimeout none 1000 ⟨true, 3000, "partial", "", 0⟩).stdout = "" :=
  ExecCommandWithTimeout_timeout_classification none 1000 ⟨true, 3000, "partial", "", 0⟩
    rfl (by decide)

/-- C2: for every `requestName` and kind, two concurrent `AllocateIdentity`
calls with the same `requestName` and kind — serialized by the journal's
per-name exclusive section, hence modelled as sequential composition —
produce exactly one Provisional journal entry and both callers observe the
same `objectUUID`; an entry already in state Ready or Deleting is returned
unchanged, and when none exists a new `objectUUID` is minted (distinct from
every stored one) and a Provisional entry is written. -/
theorem AllocateIdentity_contract (j : Journal) (name : String)
    (kind : ObjectKind) (parent : Option Nat) (hwf : JournalWF j) :
    (∀ e, lookupEntry j name = some e →
      (e.state = EntryState.ready ∨ e.state = EntryState.deleting) →
      AllocateIdentity j name kind parent = (e, j)) ∧
    (lookupEntry j name = none →
      (AllocateIdentity j name kind parent).1.state = EntryState.provisional ∧
      (AllocateIdentity j name kind parent).1.requestName = name ∧
      (AllocateIdentity j name kind parent).1.kind = kind ∧
      (∀ e ∈ j.entries, (AllocateIdentity j name kind parent).1.objectUUID ≠ e.objectUUID) ∧
      lookupEntry (AllocateIdentity j name kind parent).2 name =
        some (AllocateIdentity j name kind parent).1) ∧
    (lookupEntry j name = none →
      (AllocateIdentity (AllocateIdentity j name kind parent).2 name kind parent).1.objectUUID =
        (AllocateIdentity j name kind parent).1.objectUUID ∧
      entryCountFor (AllocateIdentity (AllocateIdentity j name kind parent).2 name kind parent).2
        name = 1 ∧
      (AllocateIdentity j name kind parent).1.state = EntryState.provisional) := by
  refine ⟨?_, ?_, ?_⟩
  · intro e hsome _
    simp only [AllocateIdentity, hsome]
  · intro hnone
    have hstep : AllocateIdentity j name kind parent =
        ({ requestName := name, objectUUID := j.nextUUID, kind := kind,
           parentUUID := parent, state := EntryState.provisional },
         { entries := j.entries ++
             [{ requestName := name, objectUUID := j.nextUUID, kind := kind,
                parentUUID := parent, state := EntryState.provisional }],
           nextUUID := j.nextUUID + 1 }) := by
      simp only [AllocateIdentity, hnone]
    have hlookNew : lookupEntry (AllocateIdentity j name kind parent).2 name =
        some (AllocateIdentity j name kind parent).1 := by
      rw [hstep]
      simp only [lookupEntry] at hnone ⊢
      rw [List.find?_append, hnone]
      simp [List.find?]
    rw [hstep]
    refine ⟨rfl, rfl, rfl, ?_, ?_⟩
    · intro e he
      exact Nat.ne_of_gt (hwf e he)
    · rw [hstep] at hlookNew
      exact hlookNew
  · intro hnone
    have hstep : AllocateIdentity j name kind parent =
        ({ requestName := name, objectUUID := j.nextUUID, kind := kind,
           parentUUID := parent, state := EntryState.provisional },
         { entries := j.entries ++
             [{ requestName := name, objectUUID := j.nextUUID, kind := kind,
                parentUUID := parent, state := EntryState.provisional }],
           nextUUID := j.nextUUID + 1 }) := by
      simp only [AllocateIdentity, hnone]
    have hlookNew : lookupEntry (AllocateIdentity j name kind parent).2 name =
        some (AllocateIdentity j name kind parent).1 := by
      rw [hstep]
      simp only [lookupEntry] at hnone ⊢
      rw [List.find?_append, hnone]
      simp [List.find?]
    have hstep2 : AllocateIdentity (AllocateIdentity j name kind parent).2 name kind parent =
        ((AllocateIdentity j name kind parent).1, (AllocateIdentity j name kind parent).2) := by
      generalize hg : AllocateIdentity j name kind parent = q at hlookNew ⊢
      simp only [AllocateIdentity, hlookNew]
    have hfilter : j.entries.filter (fun e => e.requestName = name) = [] := by
      simp only [lookupEntry] at hnone
      exact List.filter_eq_nil_iff.mpr (List.find?_eq_none.mp hnone)
    refine ⟨?_, ?_, ?_⟩
    · rw [hstep2]
    · rw [hstep2, hstep]
      simp only [entryCountFor, List.filter_append, hfilter]
      simp
    · rw [hstep]

/-- Witness for C2: starting from the empty journal, two serialized
allocations for `vol-1` observe the same UUID and leave exactly one
Provisional entry; a journal already holding a Ready entry for `vol-1`
returns that entry unchanged. -/
theorem AllocateIdentity_contract_witness :
    (AllocateIdentity (AllocateIdentity ⟨[], 0⟩ "vol-1" ObjectKind.volume none).2
      "vol-1" ObjectKind.volume none).1.objectUUID =
      (AllocateIdentity ⟨[], 0⟩ "vol-1" ObjectKind.volume none).1.objectUUID ∧
    entryCountFor (AllocateIdentity (AllocateIdentity ⟨[], 0⟩ "vol-1" ObjectKind.volume none).2
      "vol-1" ObjectKind.volume none).2 "vol-1" = 1 ∧
    (AllocateIdentity ⟨[], 0⟩ "vol-1" ObjectKind.volume none).1.state =
      EntryState.provisional ∧
    AllocateIdentity ⟨[⟨"vol-1", 0, ObjectKind.volume, none, EntryState.ready⟩], 1⟩
      "vol-1" ObjectKind.volume none =
      (⟨"vol-1", 0, ObjectKind.volume, none, EntryState.ready⟩,
       ⟨[⟨"vol-1", 0, ObjectKind.volume, none, EntryState.ready⟩], 1⟩) := by
  have h1 := AllocateIdentity_contract ⟨[], 0⟩ "vol-1" ObjectKind.volume none
    (by intro e he; cases he)
  have h2 := AllocateIdentity_contract
    ⟨[⟨"vol-1", 0, ObjectKind.volume, none, EntryState.ready⟩], 1⟩
    "vol-1" ObjectKind.volume none
    (by intro e he; simp at he; subst he; decide)
  obtain ⟨ha, hb, hc⟩ := h1.2.2 rfl
  exact ⟨ha, hb, hc,
    h2.1 ⟨"vol-1", 0, ObjectKind.volume, none, EntryState.ready⟩ rfl (Or.inl rfl)⟩

/-- C3: for every well-formed configuration document containing a record
whose `clusterID` equals the requested identifier, `Monitors` returns the
comma-joined endpoints of the first matching record in document order. -/
theorem Mons_first_match (file : FileState) (id : String) (rs : List RawRecord)
    (r : RawRecord) (j : Json) (ms : List String)
    (hload : loadConfig file = Except.ok rs)
    (hfind : rs.find? (fun rec => matchesID rec id) = some r)
    (hmon : getField r "monitors" = some j)
    (hdec : asStringList j = some ms)
    (hne : ms ≠ []) :
    Mons file id = Except.ok (String.intercalate "," ms) := by
  have hres : resolveCluster file id = Except.ok r := by
    simp only [resolveCluster, hload, hfind]
  cases ms with
  | nil => exact absurd rfl hne
  | cons a as => simp only [Mons, hres, hmon, hdec]

/-- Witness for C3: the spec's scenario A document resolves `c1` to
`m1,m2,m3`, and in the test's two-record document each `clusterID` resolves
to its own record's monitors. -/
theorem Mons_first_match_witness :
    Mons docScenarioA "c1" = Except.ok "m1,m2,m3" ∧
    Mons docTwoClusters "test2" = Except.ok "mon1,mon2,mon3" ∧
    Mons docTwoClusters "test1" = Except.ok "mon4,mon5,mon6" := by
  refine ⟨?_, ?_, ?_⟩
  · exact Mons_first_match docScenarioA "c1" [recScenarioA] recScenarioA
      (Json.arr [Json.str "m1", Json.str "m2", Json.str "m3"]) ["m1", "m2", "m3"]
      rfl rfl rfl rfl (by decide)
  · exact Mons_first_match docTwoClusters "test2" [recTest2, recTest1] recTest2
      (Json.arr [Json.str "mon1", Json.str "mon2", Json.str "mon3"])
      ["mon1", "mon2", "mon3"] rfl rfl rfl rfl (by decide)
  · exact Mons_first_match docTwoClusters "test1" [recTest2, recTest1] recTest1
      (Json.arr [Json.str "mon4", Json.str "mon5", Json.str "mon6"])
      ["mon4", "mon5", "mon6"] rfl rfl rfl rfl (by decide)

/-- C4: for every valid (parseable) configuration document and every
`clusterID` that matches no record in the document, each resolver accessor
fails with `clusterNotFound` and never returns a zero-value success. -/
theorem resolver_cluster_not_found (file : FileState) (id : String)
    (rs : List RawRecord) (hload : loadConfig file = Except.ok rs)
    (hnomatch : ∀ r ∈ rs, matchesID r id = false) :
    Mons file id = Except.error ConfigError.clusterNotFound ∧
    GetRBDNetNamespaceFilePath file id = Except.error ConfigError.clusterNotFound ∧
    GetCephFSNetNamespaceFilePath file id = Except.error ConfigError.clusterNotFound ∧
    GetNFSNetNamespaceFilePath file id = Except.error ConfigError.clusterNotFound ∧
    GetCephFSMountOptions file id = Except.error ConfigError.clusterNotFound ∧
    GetRBDMirrorDaemonCount file id = Except.error ConfigError.clusterNotFound ∧
    GetCrushLocationLabels file id = Except.error ConfigError.clusterNotFound := by
  have hfind : rs.find? (fun rec => matchesID rec id) = none :=
    List.find?_eq_none.mpr (fun x hx h => by rw [hnomatch x hx] at h; exact Bool.noConfusion h)
  have hres : resolveCluster file id = Except.error ConfigError.clusterNotFound := by
    simp only [resolveCluster, hload, hfind]
  refine ⟨?_, ?_, ?_, ?_, ?_, ?_, ?_⟩ <;>
    simp only [Mons, GetRBDNetNamespaceFilePath, GetCephFSNetNamespaceFilePath,
      GetNFSNetNamespaceFilePath, NetNamespaceFilePath, GetCephFSMountOptions,
      GetRBDMirrorDaemonCount, GetCrushLocationLabels, hres]

/-- Witness for C4: the test's two-record document resolves the absent
identifier `test3` to `clusterNotFound` under every accessor. -/
theorem resolver_cluster_not_found_witness :
    Mons docTwoClusters "test3" = Except.error ConfigError.clusterNotFound ∧
    GetRBDNetNamespaceFilePath docTwoClusters "test3" =
      Except.error ConfigError.clusterNotFound ∧
    GetCephFSNetNamespaceFilePath docTwoClusters "test3" =
      Except.error ConfigError.clusterNotFound ∧
    GetNFSNetNamespaceFilePath docTwoClusters "test3" =
      Except.error ConfigError.clusterNotFound ∧
    GetCephFSMountOptions docTwoClusters "test3" =
      Except.error ConfigError.clusterNotFound ∧
    GetRBDMirrorDaemonCount docTwoClusters "test3" =
      Except.error ConfigError.clusterNotFound ∧
    GetCrushLocationLabels docTwoClusters "test3" =
      Except.error ConfigError.clusterNotFound :=
  resolver_cluster_not_found docTwoClusters "test3" [recTest2, recTest1] rfl (by decide)

/-- C5: for every resolver accessor and every `clusterID`, a zero-byte
configuration document fails at parse time with `configUnreadable`, and is
distinguished from a valid empty list, which yields `clusterNotFound` for
any identifier. -/
theorem empty_document_vs_empty_list (id : String) :
    (Mons (FileState.contents "") id = Except.error ConfigError.configUnreadable ∧
     GetRBDNetNamespaceFilePath (FileState.contents "") id =
       Except.error ConfigError.configUnreadable ∧
     GetCephFSNetNamespaceFilePath (FileState.contents "") id =
       Except.error ConfigError.configUnreadable ∧
     GetNFSNetNamespaceFilePath (FileState.contents "") id =
       Except.error ConfigError.configUnreadable ∧
     GetCephFSMountOptions (FileState.contents "") id =
       Except.error ConfigError.configUnreadable ∧
     GetRBDMirrorDaemonCount (FileState.contents "") id =
       Except.error ConfigError.configUnreadable ∧
     GetCrushLocationLabels (FileState.contents "") id =
       Except.error ConfigError.configUnreadable) ∧
    (Mons (FileState.contents "[]") id = Except.error ConfigError.clusterNotFound ∧
     GetRBDNetNamespaceFilePath (FileState.contents "[]") id =
       Except.error ConfigError.clusterNotFound ∧
     GetCephFSNetNamespaceFilePath (FileState.contents "[]") id =
       Except.error ConfigError.clusterNotFound ∧
     GetNFSNetNamespaceFilePath (FileState.contents "[]") id =
       Except.error ConfigError.clusterNotFound ∧
     GetCephFSMountOptions (FileState.contents "[]") id =
       Except.error ConfigError.clusterNotFound ∧
     GetRBDMirrorDaemonCount (FileState.contents "[]") id =
       Except.error ConfigError.clusterNotFound ∧
     GetCrushLocationLabels (FileState.contents "[]") id =
       Except.error ConfigError.clusterNotFound) :=
  ⟨⟨rfl, rfl, rfl, rfl, rfl, rfl, rfl⟩, ⟨rfl, rfl, rfl, rfl, rfl, rfl, rfl⟩⟩

/-- C6: for every configuration document containing a record matching the
requested `clusterID`, `Monitors` fails with `malformedRecord` when that
record lacks a `monitors` field or when any element of the monitors list is
not a string; it never returns a partial or coerced monitor list. -/
theorem Mons_malformed_monitors (file : FileState) (id : String)
    (rs : List RawRecord) (r : RawRecord)
    (hload : loadConfig file = Except.ok rs)
    (hfind : rs.find? (fun rec => matchesID rec id) = some r) :
    (getField r "monitors" = none →
      Mons file id = Except.error ConfigError.malformedRecord) ∧
    (∀ xs x, getField r "monitors" = some (Json.arr xs) → x ∈ xs →
      (∀ s, x ≠ Json.str s) →
      Mons file id = Except.error ConfigError.malformedRecord) := by
  have hres : resolveCluster file id = Except.ok r := by
    simp only [resolveCluster, hload, hfind]
  constructor
  · intro hnone
    simp only [Mons, hres, hnone]
  · intro xs x hxs hmem hstr
    have hcore : asStringListCore xs = none := asStringListCore_eq_none hmem hstr
    simp only [Mons, hres, hxs, asStringList, hcore]

/-- Witness for C6: the test's record with a misspelled monitors key and its
record with a numeric monitor element both fail with `malformedRecord`. -/
theorem Mons_malformed_monitors_witness :
    Mons docMonitorsMissing "test2" = Except.error ConfigError.malformedRecord ∧
    Mons docMonitorsNumeric "test2" = Except.error ConfigError.malformedRecord := by
  constructor
  · exact (Mons_malformed_monitors docMonitorsMissing "test2" [recMonitorsMissing]
      recMonitorsMissing rfl rfl).1 rfl
  · exact (Mons_malformed_monitors docMonitorsNumeric "test2" [recMonitorsNumeric]
      recMonitorsNumeric rfl rfl).2
      [Json.str "mon1", Json.num 2, Json.str "mon3"] (Json.num 2) rfl
      (List.mem_cons_of_mem _ (List.mem_cons_self _ _))
      (fun s h => Json.noConfusion h)

/-- C7: for every matched cluster record, `MirrorDaemonCount` returns
exactly 1 when the `rbd.mirrorDaemonCount` field is omitted, returns the
configured integer when present, and fails with no silent coercion when the
field is present but encoded as a non-integer such as a string. -/
theorem GetRBDMirrorDaemonCount_contract (file : FileState) (id : String)
    (rs : List RawRecord) (r : RawRecord)
    (hload : loadConfig file = Except.ok rs)
    (hfind : rs.find? (fun rec => matchesID rec id) = some r) :
    (getSection r "rbd" = none → GetRBDMirrorDaemonCount file id = Except.ok 1) ∧
    (∀ fields, getSection r "rbd" = some fields →
      getField fields "mirrorDaemonCount" = none →
      GetRBDMirrorDaemonCount file id = Except.ok 1) ∧
    (∀ fields n, getSection r "rbd" = some fields →
      getField fields "mirrorDaemonCount" = some (Json.num n) →
      GetRBDMirrorDaemonCount file id = Except.ok n) ∧
    (∀ fields s, getSection r "rbd" = some fields →
      getField fields "mirrorDaemonCount" = some (Json.str s) →
      GetRBDMirrorDaemonCount file id = Except.error ConfigError.malformedRecord) := by
  have hres : resolveCluster file id = Except.ok r := by
    simp only [resolveCluster, hload, hfind]
  refine ⟨?_, ?_, ?_, ?_⟩
  · intro h
    simp only [GetRBDMirrorDaemonCount, hres, h]
  · intro fields h1 h2
    simp only [GetRBDMirrorDaemonCount, hres, h1, h2]
  · intro fields n h1 h2
    simp only [GetRBDMirrorDaemonCount, hres, h1, h2]
  · intro fields s h1 h2
    simp only [GetRBDMirrorDaemonCount, hres, h1, h2]

/-- Witness for C7: the test's document yields the configured count 2 for
`cluster-1`, the default 1 for `cluster-3` whose field is omitted (the
spec's scenario B), and a failure when the count is encoded as the string
`"2"`. -/
theorem GetRBDMirrorDaemonCount_contract_witness :
    GetRBDMirrorDaemonCount docMirror "cluster-1" = Except.ok 2 ∧
    GetRBDMirrorDaemonCount docMirror "cluster-3" = Except.ok 1 ∧
    GetRBDMirrorDaemonCount docMirrorString "cluster-1" =
      Except.error ConfigError.malformedRecord := by
  refine ⟨?_, ?_, ?_⟩
  · exact (GetRBDMirrorDaemonCount_contract docMirror "cluster-1" [recMirror1, recMirror3]
      recMirror1 rfl rfl).2.2.1 [("mirrorDaemonCount", Json.num 2)] 2 rfl rfl
  · exact (GetRBDMirrorDaemonCount_contract docMirror "cluster-3" [recMirror1, recMirror3]
      recMirror3 rfl rfl).1 rfl
  · exact (GetRBDMirrorDaemonCount_contract docMirrorString "cluster-1" [recMirrorString]
      recMirrorString rfl rfl).2.2.2 [("mirrorDaemonCount", Json.str "2")] "2" rfl rfl

/-- C8: for every matched cluster record, `CrushLocationLabels` returns
`(false, "")` whenever `readAffinity.enabled` is false or the `readAffinity`
section is entirely absent, regardless of any populated
`crushLocationLabels` list; when enabled it returns `(true, comma-joined
ordered label list)`. -/
theorem GetCrushLocationLabels_contract (file : FileState) (id : String)
    (rs : List RawRecord) (r : RawRecord)
    (hload : loadConfig file = Except.ok rs)
    (hfind : rs.find? (fun rec => matchesID rec id) = some r) :
    (getSection r "readAffinity" = none →
      GetCrushLocationLabels file id = Except.ok (false, "")) ∧
    (∀ fields, getSection r "readAffinity" = some fields →
      readAffinityEnabled fields = false →
      GetCrushLocationLabels file id = Except.ok (false, "")) ∧
    (∀ fields ls, getSection r "readAffinity" = some fields →
      readAffinityEnabled fields = true →
      crushLabelsOf fields = some ls →
      GetCrushLocationLabels file id = Except.ok (true, String.intercalate "," ls)) := by
  have hres : resolveCluster file id = Except.ok r := by
    simp only [resolveCluster, hload, hfind]
  refine ⟨?_, ?_, ?_⟩
  · intro h
    simp only [GetCrushLocationLabels, hres, h]
  · intro fields h1 h2
    simp [GetCrushLocationLabels, hres, h1, h2]
  · intro fields ls h1 h2 h3
    simp [GetCrushLocationLabels, hres, h1, h2, h3]

/-- Witness for C8: in the test's document, `cluster-4` (no `readAffinity`
section) and `cluster-3` (disabled, labels populated) both yield
`(false, "")`, while `cluster-1` yields the enabled comma-joined labels. -/
theorem GetCrushLocationLabels_contract_witness :
    GetCrushLocationLabels docReadAffinity "cluster-4" = Except.ok (false, "") ∧
    GetCrushLocationLabels docReadAffinity "cluster-3" = Except.ok (false, "") ∧
    GetCrushLocationLabels docReadAffinity "cluster-1" =
      Except.ok (true,
        "topology.kubernetes.io/region,topology.kubernetes.io/zone,topology.io/rack") := by
  refine ⟨?_, ?_, ?_⟩
  · exact (GetCrushLocationLabels_contract docReadAffinity "cluster-4"
      [recReadAffinity1, recReadAffinity3, recReadAffinity4] recReadAffinity4
      rfl rfl).1 rfl
  · exact (GetCrushLocationLabels_contract docReadAffinity "cluster-3"
      [recReadAffinity1, recReadAffinity3, recReadAffinity4] recReadAffinity3
      rfl rfl).2.1
      [("enabled", Json.bool false),
       ("crushLocationLabels", Json.arr [Json.str "topology.io/rack"])] rfl rfl
  · exact (GetCrushLocationLabels_contract docReadAffinity "cluster-1"
      [recReadAffinity1, recReadAffinity3, recReadAffinity4] recReadAffinity1
      rfl rfl).2.2
      [("enabled", Json.bool true),
       ("crushLocationLabels",
        Json.arr
          [Json.str "topology.kubernetes.io/region",
           Json.str "topology.kubernetes.io/zone",
           Json.str "topology.io/rack"])]
      ["topology.kubernetes.io/region", "topology.kubernetes.io/zone", "topology.io/rack"]
      rfl rfl rfl

/-- C9: for every backend kind (RBD, CephFS, NFS) and every matched cluster
record, `NetNamespaceFilePath` returns the configured per-backend isolation
path string, or the empty string when the record exists but the field is
unset; it never errors because the field is absent, and only errors with
`clusterNotFound` or `configUnreadable`. -/
theorem NetNamespaceFilePath_contract (file : FileState) (id : String)
    (rs : List RawRecord) (r : RawRecord)
    (hload : loadConfig file = Except.ok rs)
    (hfind : rs.find? (fun rec => matchesID rec id) = some r) :
    (∀ kind, NetNamespaceFilePath file id kind = Except.ok (netNamespacePathOf r kind)) ∧
    (∀ kind, getSection r (backendKey kind) = none →
      NetNamespaceFilePath file id kind = Except.ok "") ∧
    (∀ f2 id2 kind e, NetNamespaceFilePath f2 id2 kind = Except.error e →
      e = ConfigError.clusterNotFound ∨ e = ConfigError.configUnreadable) := by
  have hres : resolveCluster file id = Except.ok r := by
    simp only [resolveCluster, hload, hfind]
  refine ⟨?_, ?_, ?_⟩
  · intro kind
    simp only [NetNamespaceFilePath, hres]
  · intro kind h
    simp only [NetNamespaceFilePath, hres, netNamespacePathOf, h]
  · intro f2 id2 kind e h
    unfold NetNamespaceFilePath at h
    cases hres2 : resolveCluster f2 id2 with
    | error e2 =>
      rw [hres2] at h
      have he : e2 = e := Except.error.inj h
      exact he ▸ resolveCluster_error hres2
    | ok rec =>
      rw [hres2] at h
      exact Except.noConfusion h

/-- Witness for C9: the test's document yields the configured RBD isolation
path for `cluster-1` and the empty string for `cluster-3`, whose record
exists with the field unset. -/
theorem NetNamespaceFilePath_contract_witness :
    GetRBDNetNamespaceFilePath docNetNamespace "cluster-1" =
      Except.ok "/var/lib/kubelet/plugins/rbd.ceph.csi.com/cluster1-net" ∧
    GetRBDNetNamespaceFilePath docNetNamespace "cluster-3" = Except.ok "" := by
  constructor
  · exact (NetNamespaceFilePath_contract docNetNamespace "cluster-1"
      [recNetNamespace1, recNetNamespace3] recNetNamespace1 rfl rfl).1 BackendKind.rbd
  · exact (NetNamespaceFilePath_contract docNetNamespace "cluster-3"
      [recNetNamespace1, recNetNamespace3] recNetNamespace3 rfl rfl).2.1 BackendKind.rbd rfl

end CephCSI
